import Mathlib

/-!
# Verification of the safe-plate agent engine

Shallow embedding of `src/agent_engine.py` (the dietary-safety pipeline):
the in-memory TTL cache, the generation-client adapter
`query_agent_with_runner`, and the orchestrator `process_user_request`
with its inline response-normalization logic.

External collaborators are modelled as explicit parameters, exactly at the
interface the Python code uses them:
* `md5h : String → String` — `hashlib.md5(...).hexdigest()`; the code uses
  it only as a deterministic function of the combined string.
* `jsonLoads : String → Except String Json` — `json.loads`, which either
  returns a parsed value or raises `JSONDecodeError` with a message.
* `apiKey : Option String` — `os.environ.get("GOOGLE_API_KEY")`.
* `backend : Except String String` — one call to
  `client.models.generate_content`: either the response text or a raised
  exception's message.
* `now : Nat` — `time.time()` (one request is modelled at a single
  instant, matching the code where the lookup and the store happen within
  one call).
-/

set_option autoImplicit false

namespace SafePlate

/-- Python values as produced by `json.loads`: null, booleans, numbers
(integers suffice for every value the engine manipulates), strings,
lists and dicts (association lists in insertion order). -/
inductive Json where
  | null
  | bool (b : Bool)
  | num (n : Int)
  | str (s : String)
  | arr (elems : List Json)
  | obj (fields : List (String × Json))
  deriving Repr, BEq

/-- First-match lookup in a dict's field list (`results[k]` /
`k in results`). Python dicts hold each key once; first match is the
dict semantics on such lists. -/
def findField : List (String × Json) → String → Option Json
  | [], _ => none
  | (k', v') :: rest, k => if k' = k then some v' else findField rest k

/-- Functional counterpart of `d[k] = v` on a dict's field list:
replace in place when the key exists, append otherwise (Python
insertion-order semantics). -/
def setFields : List (String × Json) → String → Json → List (String × Json)
  | [], k, v => [(k, v)]
  | (k', v') :: rest, k, v =>
      if k' = k then (k, v) :: rest else (k', v') :: setFields rest k v

/-- Lookup `results[k]` on a Json value: field lookup on dicts, nothing on
anything else. -/
def Json.getField : Json → String → Option Json
  | .obj fs, k => findField fs k
  | _, _ => none

/-- Assignment `d[k] = v` on a Json value (no-op on non-dicts; the code only
assigns into values it has checked with `isinstance(·, dict)`). -/
def Json.setField : Json → String → Json → Json
  | .obj fs, k, v => .obj (setFields fs k v)
  | j, _, _ => j

/-- Membership `k in results` (with `results` known to be a dict). -/
def Json.hasField (j : Json) (k : String) : Bool :=
  (j.getField k).isSome

/-- Test `isinstance(j, dict)`. -/
def Json.isObj : Json → Bool
  | .obj _ => true
  | _ => false

/-- Test `isinstance(j, list)`. -/
def Json.isArr : Json → Bool
  | .arr _ => true
  | _ => false

/-- Python truthiness of a value, as used by `if cached_result:`. -/
def Json.pyTruthy : Json → Bool
  | .null => false
  | .bool b => b
  | .num n => n ≠ 0
  | .str s => s ≠ ""
  | .arr xs => !xs.isEmpty
  | .obj fs => !fs.isEmpty

/-- Python method `s.lower()` (per-character lowercasing). -/
def pyLower (s : String) : String :=
  ⟨s.data.map Char.toLower⟩

/-- Python method `s.strip()`: drop whitespace from both ends. -/
def pyStrip (s : String) : String :=
  ⟨((s.data.dropWhile Char.isWhitespace).reverse.dropWhile
      Char.isWhitespace).reverse⟩

/-- Python slice `s[:n]` on a string: the first `n` characters. -/
def pyTake (s : String) (n : Nat) : String :=
  ⟨s.data.take n⟩

/-- Character-list test: does `pat` occur at the start of `l`? -/
def charsStartWith : List Char → List Char → Bool
  | [], _ => true
  | _ :: _, [] => false
  | c :: cs, d :: ds => c == d && charsStartWith cs ds

/-- Character-list test: does `pat` occur anywhere inside `l`? -/
def charsHaveSub (pat : List Char) : List Char → Bool
  | [] => charsStartWith pat []
  | d :: ds => charsStartWith pat (d :: ds) || charsHaveSub pat ds

/-- Python substring test `pat in s` (as used by
`"429" in error_msg` and `"RESOURCE_EXHAUSTED" in error_msg`). -/
def pyIn (pat s : String) : Bool :=
  charsHaveSub pat.data s.data

/-! ## The caching system (`CACHE`, `get_cache_key`, `get_from_cache`,
`save_to_cache`) -/

/-- The process-wide `CACHE` dict: fingerprint ↦ `(cached_data, timestamp)`,
modelled as an association list with first-match lookup. -/
abbrev Cache := List (String × Json × Nat)

/-- Constant `CACHE_EXPIRY = 3600` — one hour in seconds. -/
def CACHE_EXPIRY : Nat := 3600

/-- Membership `cache_key in CACHE` and lookup `CACHE[cache_key]`. -/
def cacheLookup (c : Cache) (k : String) : Option (Json × Nat) :=
  match c with
  | [] => none
  | (k', v) :: rest => if k' = k then some v else cacheLookup rest k

/-- Deletion `del CACHE[cache_key]`. -/
def cacheErase (c : Cache) (k : String) : Cache :=
  match c with
  | [] => []
  | (k', v) :: rest =>
      if k' = k then cacheErase rest k else (k', v) :: cacheErase rest k

/-- Assignment `CACHE[cache_key] = value`: dict update (position is irrelevant to
lookup, so erase-then-append is a faithful dict model). -/
def cacheInsert (c : Cache) (k : String) (v : Json × Nat) : Cache :=
  cacheErase c k ++ [(k, v)]

/-- Model of `get_cache_key(user_query, user_profile, location)`:
the combined string `q.lower().strip() + p.lower().strip() + l.lower().strip()` (pipe-separated) hashed
with md5 (`md5h` abstracts `hashlib.md5(...).hexdigest()`, used by the
code only as a function of this combined string). -/
def get_cache_key (md5h : String → String)
    (user_query user_profile location : String) : String :=
  md5h (pyStrip (pyLower user_query) ++ "|" ++ pyStrip (pyLower user_profile)
        ++ "|" ++ pyStrip (pyLower location))

/-- Model of `get_from_cache(cache_key)` at instant `now`: returns the cached data
while `time.time() - timestamp < CACHE_EXPIRY`, deletes the entry and
returns `None` once expired. Also returns the possibly-updated store. -/
def get_from_cache (c : Cache) (cache_key : String) (now : Nat) :
    Option Json × Cache :=
  match cacheLookup c cache_key with
  | some (cached_data, timestamp) =>
      if now - timestamp < CACHE_EXPIRY then (some cached_data, c)
      else (none, cacheErase c cache_key)
  | none => (none, c)

/-- Model of `save_to_cache(cache_key, data)`: store with the current timestamp. -/
def save_to_cache (c : Cache) (cache_key : String) (data : Json)
    (now : Nat) : Cache :=
  cacheInsert c cache_key (data, now)

/-! ## The generation-client adapter (`query_agent_with_runner`) -/

/-- Outcome of `query_agent_with_runner`: the `(text, error)` pair the
Python function returns, plus a bookkeeping flag recording whether
`client.models.generate_content` was actually invoked (it is skipped
when no API key is configured). -/
structure AdapterOut where
  text : Option String
  error : Option String
  generated : Bool
  deriving Repr

/-- Model of `query_agent_with_runner(agent, prompt, ...)` — the error-normalizing
wrapper around one backend call. `apiKey` is
`os.environ.get("GOOGLE_API_KEY")` (`if not key` is true for `None` and
for the empty string); `backend` is the `generate_content` call: `.ok`
carries `response.text` (the empty string standing for a falsy text),
`.error` carries a raised exception's message. -/
def query_agent_with_runner (apiKey : Option String)
    (backend : Except String String) : AdapterOut :=
  if apiKey = none ∨ apiKey = some "" then
    ⟨none, some "⚠️ Error: GOOGLE_API_KEY not set. Check your .env file.", false⟩
  else
    match backend with
    | .ok text =>
        if text = "" then ⟨none, some "Empty response from API", true⟩
        else ⟨some text, none, true⟩
    | .error error_msg =>
        if pyIn "429" error_msg || pyIn "RESOURCE_EXHAUSTED" error_msg then
          ⟨none, some ("⚠️ API Quota Exceeded: " ++ error_msg), true⟩
        else
          ⟨none, some ("⚠️ API Error: " ++ error_msg), true⟩

/-! ## The orchestrator (`process_user_request`) -/

/-- The `default_results` structure with `audit.summary_notes` replaced by
`notes` (the code mutates only `summary_notes` on its failure paths,
keeping headline `"Processing Error"`). -/
def defaultWithNotes (notes : List Json) : Json :=
  .obj [("intent", .str "RESTAURANT"),
        ("recommendations", .arr []),
        ("audit", .obj [("overall_score", .num 0),
                        ("headline", .str "Processing Error"),
                        ("summary_notes", .arr notes)])]

/-- The `default_results` structure as literally written in `process_user_request`. -/
def default_results : Json :=
  defaultWithNotes [.str "Unable to process request. Please try again."]

/-- The audit default used when `audit` is absent or not a dict. -/
def incompleteAudit : Json :=
  .obj [("overall_score", .num 0),
        ("headline", .str "Incomplete Response"),
        ("summary_notes", .arr [.str "System returned incomplete data."])]

/-- The repair idiom `if k not in d: d[k] = default` used by the
validation block of `process_user_request`. -/
def ensureKey (k : String) (dflt : Json) (r : Json) : Json :=
  if r.hasField k then r else r.setField k dflt

/-- The repair idiom `if k not in d or not isinstance(d[k], list): d[k] = default`
used by the validation block of `process_user_request`. -/
def ensureListKey (k : String) (dflt : Json) (r : Json) : Json :=
  if !r.hasField k || !((r.getField k).getD .null).isArr then
    r.setField k dflt
  else r

/-- Repair `if "intent" not in results: results["intent"] = "RESTAURANT"`
(source lines 250–251). -/
def ensureIntent : Json → Json :=
  ensureKey "intent" (.str "RESTAURANT")

/-- Repair `if "recommendations" not in results or not isinstance(results["recommendations"], list): results["recommendations"] = []`
(source lines 252–253). -/
def ensureRecommendations : Json → Json :=
  ensureListKey "recommendations" (.arr [])

/-- Repair `if "audit" not in results or not isinstance(results["audit"], dict): results["audit"] = ...`
(source lines 254–259). -/
def ensureAudit (results : Json) : Json :=
  if !results.hasField "audit"
     || !((results.getField "audit").getD .null).isObj then
    results.setField "audit" incompleteAudit
  else results

/-- Repair `if "overall_score" not in results["audit"]: ... = 0` (source lines 262–263). -/
def ensureScore : Json → Json :=
  ensureKey "overall_score" (.num 0)

/-- Repair `if "headline" not in results["audit"]: ... = "Unknown Status"` (source lines 264–265). -/
def ensureHeadline : Json → Json :=
  ensureKey "headline" (.str "Unknown Status")

/-- Repair `if "summary_notes" not in results["audit"] or not isinstance(..., list): ... = ["No audit notes available."]`
(source lines 266–267). -/
def ensureNotes : Json → Json :=
  ensureListKey "summary_notes" (.arr [.str "No audit notes available."])

/-- The audit-structure validation (source lines 261–267): ensure
`overall_score`, `headline`, and a list-valued `summary_notes` exist on
the (by now dict-valued) `results["audit"]`. -/
def repairAuditFields (a : Json) : Json :=
  ensureNotes (ensureHeadline (ensureScore a))

/-- The whole field-repair block of `process_user_request` applied to a
successfully parsed `results` (source lines 246–267): the three top-level
repairs in order, then the in-place repair of `results["audit"]`'s own
fields (functionally: read the audit value, repair it, write it back). -/
def normalizeParsed (results : Json) : Json :=
  let r3 := ensureAudit (ensureRecommendations (ensureIntent results))
  r3.setField "audit" (repairAuditFields ((r3.getField "audit").getD .null))

/-- What one call to `process_user_request` produces: the returned value,
the cache afterwards, and whether the backend was invoked. -/
structure RunResult where
  result : Json
  cache : Cache
  generated : Bool

/-- The cache-miss path of `process_user_request` (source lines 222–284):
one unified backend call via `query_agent_with_runner`, the error and
empty-response checks, `json.loads`, the field-repair block,
`save_to_cache`, return. Every failure path returns a copy of
`default_results` whose `summary_notes` carry the diagnostic, exactly
as in the source. -/
def generateStep (jsonLoads : String → Except String Json)
    (apiKey : Option String) (backend : Except String String)
    (now : Nat) (cache1 : Cache) (cache_key : String) : RunResult :=
  match query_agent_with_runner apiKey backend with
  | ⟨text, error, generated⟩ =>
    match error with
    | some e => ⟨defaultWithNotes [.str e], cache1, generated⟩
    | none =>
      match text with
      | none =>
          ⟨defaultWithNotes
            [.str "Received empty response from API. Please try again."],
           cache1, generated⟩
      | some raw_json =>
        if pyStrip raw_json = "" then
          ⟨defaultWithNotes
            [.str "Received empty response from API. Please try again."],
           cache1, generated⟩
        else
          match jsonLoads raw_json with
          | .error e =>
              ⟨defaultWithNotes
                [.str ("Failed to parse API response: " ++ e),
                 .str ("Raw response preview: " ++ pyTake raw_json 100 ++ "...")],
               cache1, generated⟩
          | .ok results =>
            if results.isObj then
              let final := normalizeParsed results
              ⟨final, save_to_cache cache1 cache_key final now, generated⟩
            else
              ⟨default_results, cache1, generated⟩

/-- Does the cache-miss path of `process_user_request` take one of its
failure exits (adapter error, missing credential, empty or
whitespace-only text, parse error, or non-dict JSON)? Mirrors the branch
structure of `generateStep`. -/
def pipelineFails (jsonLoads : String → Except String Json)
    (apiKey : Option String) (backend : Except String String) : Bool :=
  match query_agent_with_runner apiKey backend with
  | ⟨text, error, _⟩ =>
    match error with
    | some _ => true
    | none =>
      match text with
      | none => true
      | some raw_json =>
        if pyStrip raw_json = "" then true
        else
          match jsonLoads raw_json with
          | .error _ => true
          | .ok results => !results.isObj

/-- Model of `process_user_request(user_query, user_profile, location)` — the main
orchestrator with caching (source lines 173–284): cache check, then the
generate-normalize-store path of `generateStep` on a miss (or on a falsy
cached value, per `if cached_result:`). -/
def process_user_request (md5h : String → String)
    (jsonLoads : String → Except String Json)
    (apiKey : Option String) (backend : Except String String)
    (now : Nat) (cache : Cache)
    (user_query user_profile location : String) : RunResult :=
  let cache_key := get_cache_key md5h user_query user_profile location
  match get_from_cache cache cache_key now with
  | (some cached_result, cache1) =>
      if cached_result.pyTruthy then ⟨cached_result, cache1, false⟩
      else generateStep jsonLoads apiKey backend now cache1 cache_key
  | (none, cache1) => generateStep jsonLoads apiKey backend now cache1 cache_key

/-- Structural validity of a final Result, as the external contract
states it: a dict with `intent`, `recommendations` and `audit` present,
whose `audit` is itself a dict with `overall_score`, `headline` and
`summary_notes` present. -/
def validAudit (a : Json) : Bool :=
  a.isObj && a.hasField "overall_score" && a.hasField "headline"
    && a.hasField "summary_notes"

/-- See `validAudit`: shape validity for the whole Result. -/
def validShape (j : Json) : Bool :=
  j.isObj && j.hasField "intent" && j.hasField "recommendations"
    && validAudit ((j.getField "audit").getD .null)

/-! ## Dictionary lemmas -/

theorem findField_setFields_self (fs : List (String × Json)) (k : String)
    (v : Json) : findField (setFields fs k v) k = some v := by
  induction fs with
  | nil => simp [setFields, findField]
  | cons e rest ih =>
      obtain ⟨k', v'⟩ := e
      by_cases h : k' = k
      · simp [setFields, h, findField]
      · simp [setFields, h, findField, ih]

theorem findField_setFields_ne (fs : List (String × Json)) (k k' : String)
    (v : Json) (h : k' ≠ k) :
    findField (setFields fs k v) k' = findField fs k' := by
  have hk : ¬k = k' := fun hkk => h hkk.symm
  induction fs with
  | nil => simp [setFields, findField, hk]
  | cons e rest ih =>
      obtain ⟨a, b⟩ := e
      by_cases ha : a = k
      · subst ha
        simp [setFields, findField, hk]
      · simp [setFields, ha, findField, ih]

theorem Json.getField_setField_self (j : Json) (k : String) (v : Json)
    (h : j.isObj = true) : (j.setField k v).getField k = some v := by
  cases j <;> simp [Json.isObj] at h
  simp [Json.setField, Json.getField, findField_setFields_self]

theorem Json.getField_setField_ne (j : Json) (k k' : String) (v : Json)
    (h : k' ≠ k) : (j.setField k v).getField k' = j.getField k' := by
  cases j <;> simp [Json.setField, Json.getField]
  exact findField_setFields_ne _ _ _ _ h

theorem Json.isObj_setField (j : Json) (k : String) (v : Json) :
    (j.setField k v).isObj = j.isObj := by
  cases j <;> rfl

theorem Json.pyTruthy_of_getField (j : Json) (k : String) (v : Json)
    (h : j.getField k = some v) : j.pyTruthy = true := by
  cases j <;> simp [Json.getField] at h
  case obj fs =>
    cases fs with
    | nil => simp [findField] at h
    | cons e rest => simp [Json.pyTruthy]

/-! ## Cache lemmas -/

theorem cacheLookup_erase_self (c : Cache) (k : String) :
    cacheLookup (cacheErase c k) k = none := by
  induction c with
  | nil => rfl
  | cons e rest ih =>
      obtain ⟨k', v⟩ := e
      by_cases h : k' = k
      · simp [cacheErase, h, ih]
      · simp [cacheErase, h, cacheLookup, ih]

theorem cacheLookup_append (c1 c2 : Cache) (k : String)
    (h : cacheLookup c1 k = none) :
    cacheLookup (c1 ++ c2) k = cacheLookup c2 k := by
  induction c1 with
  | nil => rfl
  | cons e rest ih =>
      obtain ⟨k', v⟩ := e
      by_cases hk : k' = k
      · simp [cacheLookup, hk] at h
      · simp [cacheLookup, hk] at h ⊢
        exact ih h

theorem cacheLookup_insert_self (c : Cache) (k : String) (v : Json × Nat) :
    cacheLookup (cacheInsert c k v) k = some v := by
  unfold cacheInsert
  rw [cacheLookup_append _ _ _ (cacheLookup_erase_self c k)]
  simp [cacheLookup]

theorem get_from_cache_of_none (c : Cache) (k : String) (now : Nat)
    (h : cacheLookup c k = none) : get_from_cache c k now = (none, c) := by
  simp [get_from_cache, h]

/-- Whatever `get_from_cache` returns came from a fresh entry of the
store: stale entries are never returned. -/
theorem get_from_cache_some (c c' : Cache) (k : String) (now : Nat)
    (d : Json) (h : get_from_cache c k now = (some d, c')) :
    ∃ t0, cacheLookup c k = some (d, t0) ∧ now - t0 < CACHE_EXPIRY := by
  unfold get_from_cache at h
  cases hl : cacheLookup c k with
  | none => rw [hl] at h; simp at h
  | some v =>
      obtain ⟨d0, t0⟩ := v
      rw [hl] at h
      by_cases hf : now - t0 < CACHE_EXPIRY
      · simp [hf] at h
        obtain ⟨hd, hc⟩ := h
        subst hd
        exact ⟨t0, rfl, hf⟩
      · simp [hf] at h

/-- An entry past its TTL is treated as absent and removed. -/
theorem get_from_cache_expired (c : Cache) (k : String) (now t0 : Nat)
    (d : Json) (hl : cacheLookup c k = some (d, t0))
    (ht : t0 + CACHE_EXPIRY ≤ now) :
    get_from_cache c k now = (none, cacheErase c k) := by
  have hf : ¬(now - t0 < CACHE_EXPIRY) := by omega
  simp [get_from_cache, hl, hf]

/-! ## Repair-combinator lemmas -/

theorem ensureKey_getField_ne (k dflt : _) (r : Json) (k' : String)
    (h : k' ≠ k) : (ensureKey k dflt r).getField k' = r.getField k' := by
  unfold ensureKey
  split
  · rfl
  · exact Json.getField_setField_ne _ _ _ _ h

theorem ensureKey_isObj (k : String) (dflt r : Json) :
    (ensureKey k dflt r).isObj = r.isObj := by
  unfold ensureKey
  split
  · rfl
  · exact Json.isObj_setField _ _ _

theorem ensureKey_self (k : String) (dflt r : Json) (h : r.isObj = true) :
    (ensureKey k dflt r).getField k = some ((r.getField k).getD dflt) := by
  unfold ensureKey
  cases hf : r.hasField k with
  | true =>
      simp only [hf, if_true]
      unfold Json.hasField at hf
      obtain ⟨v, hv⟩ := Option.isSome_iff_exists.mp hf
      simp [hv]
  | false =>
      have hg : r.getField k = none := by
        unfold Json.hasField at hf
        cases hg : r.getField k
        · rfl
        · rw [hg] at hf; simp at hf
      simp only [hf, Bool.false_eq_true, if_false]
      rw [Json.getField_setField_self _ _ _ h, hg]
      rfl

theorem ensureListKey_getField_ne (k : String) (dflt r : Json) (k' : String)
    (h : k' ≠ k) : (ensureListKey k dflt r).getField k' = r.getField k' := by
  unfold ensureListKey
  split
  · exact Json.getField_setField_ne _ _ _ _ h
  · rfl

theorem ensureListKey_isObj (k : String) (dflt r : Json) :
    (ensureListKey k dflt r).isObj = r.isObj := by
  unfold ensureListKey
  split
  · exact Json.isObj_setField _ _ _
  · rfl

theorem ensureListKey_of_arr (k : String) (dflt r : Json) (xs : List Json)
    (h : r.getField k = some (.arr xs)) : ensureListKey k dflt r = r := by
  unfold ensureListKey
  simp [Json.hasField, h, Json.isArr]

theorem ensureListKey_present (k : String) (dflt r : Json)
    (h : r.isObj = true) :
    ∃ v, (ensureListKey k dflt r).getField k = some v := by
  unfold ensureListKey
  split
  · exact ⟨_, Json.getField_setField_self _ _ _ h⟩
  next hc =>
      simp only [Bool.or_eq_true, Bool.not_eq_true', not_or] at hc
      obtain ⟨h1, _⟩ := hc
      have : r.hasField k = true := by simpa using h1
      unfold Json.hasField at this
      exact Option.isSome_iff_exists.mp this

theorem ensureAudit_getField_ne (r : Json) (k' : String) (h : k' ≠ "audit") :
    (ensureAudit r).getField k' = r.getField k' := by
  unfold ensureAudit
  split
  · exact Json.getField_setField_ne _ _ _ _ h
  · rfl

theorem ensureAudit_isObj (r : Json) : (ensureAudit r).isObj = r.isObj := by
  unfold ensureAudit
  split
  · exact Json.isObj_setField _ _ _
  · rfl

theorem ensureAudit_of_bad (r : Json)
    (h : ((r.getField "audit").getD .null).isObj = false) :
    ensureAudit r = r.setField "audit" incompleteAudit := by
  unfold ensureAudit
  simp [h]

theorem ensureAudit_good_value (r : Json) (h : r.isObj = true) :
    ∃ a, (ensureAudit r).getField "audit" = some a ∧ a.isObj = true := by
  unfold ensureAudit
  split
  · exact ⟨incompleteAudit, Json.getField_setField_self _ _ _ h, rfl⟩
  next hc =>
      simp only [Bool.or_eq_true, Bool.not_eq_true', not_or] at hc
      obtain ⟨h1, h2⟩ := hc
      have hf : r.hasField "audit" = true := by simpa using h1
      unfold Json.hasField at hf
      obtain ⟨a, ha⟩ := Option.isSome_iff_exists.mp hf
      refine ⟨a, ha, ?_⟩
      have := h2
      rw [ha] at this
      simpa using this

theorem hasField_of_getField (r : Json) (k : String) (v : Json)
    (h : r.getField k = some v) : r.hasField k = true := by
  unfold Json.hasField
  simp [h]

/-- The function `repairAuditFields` leaves a fully formed audit dict unchanged. -/
theorem repairAuditFields_incomplete :
    repairAuditFields incompleteAudit = incompleteAudit := rfl

/-- The audit sub-repair makes any dict-valued audit structurally valid. -/
theorem repairAuditFields_valid (a : Json) (h : a.isObj = true) :
    validAudit (repairAuditFields a) = true := by
  unfold repairAuditFields validAudit
  have h1 : (ensureScore a).isObj = true := by
    rw [ensureScore, ensureKey_isObj]; exact h
  have h2 : (ensureHeadline (ensureScore a)).isObj = true := by
    rw [ensureHeadline, ensureKey_isObj]; exact h1
  have h3 : (ensureNotes (ensureHeadline (ensureScore a))).isObj = true := by
    rw [ensureNotes, ensureListKey_isObj]; exact h2
  have hscore : (ensureScore a).getField "overall_score"
      = some (((a.getField "overall_score")).getD (.num 0)) :=
    ensureKey_self _ _ _ h
  have hhead : (ensureHeadline (ensureScore a)).getField "headline"
      = some ((((ensureScore a).getField "headline")).getD (.str "Unknown Status")) :=
    ensureKey_self _ _ _ h1
  have hscore2 : (ensureHeadline (ensureScore a)).getField "overall_score"
      = (ensureScore a).getField "overall_score" := by
    rw [ensureHeadline]
    exact ensureKey_getField_ne _ _ _ _ (by decide)
  have hscore3 : (ensureNotes (ensureHeadline (ensureScore a))).getField "overall_score"
      = (ensureHeadline (ensureScore a)).getField "overall_score" := by
    rw [ensureNotes]
    exact ensureListKey_getField_ne _ _ _ _ (by decide)
  have hhead3 : (ensureNotes (ensureHeadline (ensureScore a))).getField "headline"
      = (ensureHeadline (ensureScore a)).getField "headline" := by
    rw [ensureNotes]
    exact ensureListKey_getField_ne _ _ _ _ (by decide)
  obtain ⟨nv, hnv⟩ : ∃ v,
      (ensureNotes (ensureHeadline (ensureScore a))).getField "summary_notes" = some v := by
    rw [ensureNotes]
    exact ensureListKey_present _ _ _ h2
  rw [h3]
  rw [hasField_of_getField _ _ _ (by rw [hscore3, hscore2]; exact hscore)]
  rw [hasField_of_getField _ _ _ (by rw [hhead3]; exact hhead)]
  rw [hasField_of_getField _ _ _ hnv]
  rfl

/-! ## Normalizer lemmas -/

theorem normalizeParsed_isObj (results : Json) :
    (normalizeParsed results).isObj = results.isObj := by
  unfold normalizeParsed
  rw [Json.isObj_setField, ensureAudit_isObj, ensureRecommendations,
    ensureListKey_isObj, ensureIntent, ensureKey_isObj]

/-- After normalization, the `audit` field holds the repaired audit value;
in particular it is present and a structurally valid dict. -/
theorem normalizeParsed_audit (results : Json) (h : results.isObj = true) :
    ∃ b, (normalizeParsed results).getField "audit" = some b
      ∧ validAudit b = true := by
  unfold normalizeParsed
  have h1 : (ensureIntent results).isObj = true := by
    rw [ensureIntent, ensureKey_isObj]; exact h
  have h2 : (ensureRecommendations (ensureIntent results)).isObj = true := by
    rw [ensureRecommendations, ensureListKey_isObj]; exact h1
  have h3 : (ensureAudit (ensureRecommendations (ensureIntent results))).isObj = true := by
    rw [ensureAudit_isObj]; exact h2
  obtain ⟨a, ha, haobj⟩ := ensureAudit_good_value _ h2
  refine ⟨repairAuditFields ((((ensureAudit
      (ensureRecommendations (ensureIntent results))).getField "audit")).getD .null),
    Json.getField_setField_self _ _ _ h3, ?_⟩
  rw [ha]
  exact repairAuditFields_valid _ haobj

/-- The `intent` repair is existence-only: a present value — whatever it
is — is passed through unchanged, and only an absent `intent` is
defaulted to `"RESTAURANT"`. -/
theorem normalizeParsed_intent (results : Json) (h : results.isObj = true) :
    (normalizeParsed results).getField "intent"
      = some ((results.getField "intent").getD (.str "RESTAURANT")) := by
  unfold normalizeParsed
  rw [Json.getField_setField_ne _ _ _ _ (by decide),
    ensureAudit_getField_ne _ _ (by decide),
    ensureRecommendations, ensureListKey_getField_ne _ _ _ _ (by decide),
    ensureIntent, ensureKey_self _ _ _ h]

/-- A list-valued `recommendations` field — whatever its elements are —
survives normalization unchanged. -/
theorem normalizeParsed_recommendations (results : Json) (xs : List Json)
    (h : results.getField "recommendations" = some (.arr xs)) :
    (normalizeParsed results).getField "recommendations" = some (.arr xs) := by
  unfold normalizeParsed
  have h1 : (ensureIntent results).getField "recommendations"
      = some (.arr xs) := by
    rw [ensureIntent, ensureKey_getField_ne _ _ _ _ (by decide)]; exact h
  rw [Json.getField_setField_ne _ _ _ _ (by decide),
    ensureAudit_getField_ne _ _ (by decide),
    ensureRecommendations, ensureListKey_of_arr _ _ _ _ h1]
  exact h1

/-- With `recommendations` a list and `audit` absent or not a dict, the
normalizer installs exactly the documented default audit. -/
theorem normalizeParsed_audit_default (results : Json) (xs : List Json)
    (hrec : results.getField "recommendations" = some (.arr xs))
    (haud : ((results.getField "audit").getD .null).isObj = false) :
    (normalizeParsed results).getField "audit" = some incompleteAudit := by
  have hobj : results.isObj = true := by
    cases results <;> simp [Json.getField] at hrec
    rfl
  unfold normalizeParsed
  have h1 : (ensureIntent results).isObj = true := by
    rw [ensureIntent, ensureKey_isObj]; exact hobj
  have h2 : (ensureRecommendations (ensureIntent results)).isObj = true := by
    rw [ensureRecommendations, ensureListKey_isObj]; exact h1
  have haud2 : (((ensureRecommendations (ensureIntent results)).getField
      "audit").getD .null).isObj = false := by
    rw [ensureRecommendations, ensureListKey_getField_ne _ _ _ _ (by decide),
      ensureIntent, ensureKey_getField_ne _ _ _ _ (by decide)]
    exact haud
  rw [ensureAudit_of_bad _ haud2]
  have h3 : ((ensureRecommendations (ensureIntent results)).setField
      "audit" incompleteAudit).isObj = true := by
    rw [Json.isObj_setField]; exact h2
  rw [Json.getField_setField_self _ _ _ h3,
    Json.getField_setField_self _ _ _ h2]
  rfl

/-- Shape validity of every normalized parsed dict. -/
theorem normalizeParsed_valid (results : Json) (h : results.isObj = true) :
    validShape (normalizeParsed results) = true := by
  unfold validShape
  rw [normalizeParsed_isObj, h]
  have hint : (normalizeParsed results).hasField "intent" = true := by
    refine hasField_of_getField _ _ _ (normalizeParsed_intent results h)
  obtain ⟨b, hb, hvb⟩ := normalizeParsed_audit results h
  have hrec : (normalizeParsed results).hasField "recommendations" = true := by
    unfold normalizeParsed
    have h1 : (ensureIntent results).isObj = true := by
      rw [ensureIntent, ensureKey_isObj]; exact h
    obtain ⟨v, hv⟩ := ensureListKey_present "recommendations" (.arr [])
      (ensureIntent results) h1
    refine hasField_of_getField _ _ v ?_
    rw [Json.getField_setField_ne _ _ _ _ (by decide),
      ensureAudit_getField_ne _ _ (by decide), ensureRecommendations]
    exact hv
  rw [hint, hrec, hb]
  simpa using hvb

/-- A normalized parsed dict is Python-truthy (it has at least the
`intent` field), so a later cache hit on it is actually served. -/
theorem normalizeParsed_pyTruthy (results : Json) (h : results.isObj = true) :
    (normalizeParsed results).pyTruthy = true := by
  exact Json.pyTruthy_of_getField _ _ _ (normalizeParsed_intent results h)

/-! ## Pipeline lemmas -/

theorem validShape_defaultWithNotes (notes : List Json) :
    validShape (defaultWithNotes notes) = true := rfl

/-- Every branch of the cache-miss path yields a structurally valid
Result. -/
theorem generateStep_valid (jsonLoads : String → Except String Json)
    (apiKey : Option String) (backend : Except String String)
    (now : Nat) (cache1 : Cache) (cache_key : String) :
    validShape (generateStep jsonLoads apiKey backend now cache1 cache_key).result
      = true := by
  unfold generateStep
  rcases query_agent_with_runner apiKey backend with ⟨text, error, generated⟩
  cases error with
  | some e => exact validShape_defaultWithNotes _
  | none =>
    cases text with
    | none => exact validShape_defaultWithNotes _
    | some raw =>
      by_cases hs : pyStrip raw = ""
      · simp only [hs, if_true]
        exact validShape_defaultWithNotes _
      · simp only [hs, if_false]
        cases jsonLoads raw with
        | error e => exact validShape_defaultWithNotes _
        | ok results =>
          cases ho : results.isObj with
          | true =>
              simp only [ho, if_true]
              exact normalizeParsed_valid _ ho
          | false =>
              simp only [ho, Bool.false_eq_true, if_false]
              exact validShape_defaultWithNotes _

/-- The cache-miss path invokes the backend exactly when the adapter
does (that is, unless the credential is missing). -/
theorem generateStep_generated (jsonLoads : String → Except String Json)
    (apiKey : Option String) (backend : Except String String)
    (now : Nat) (cache1 : Cache) (cache_key : String) :
    (generateStep jsonLoads apiKey backend now cache1 cache_key).generated
      = (query_agent_with_runner apiKey backend).generated := by
  unfold generateStep
  rcases query_agent_with_runner apiKey backend with ⟨text, error, generated⟩
  cases error with
  | some e => rfl
  | none =>
    cases text with
    | none => rfl
    | some raw =>
      by_cases hs : pyStrip raw = ""
      · simp only [hs, if_true]
      · simp only [hs, if_false]
        cases jsonLoads raw with
        | error e => rfl
        | ok results =>
          cases ho : results.isObj with
          | true => simp only [ho, if_true]
          | false => simp only [ho, Bool.false_eq_true, if_false]

/-- With a configured key the adapter always reaches the backend call. -/
theorem query_agent_generated (k : String) (hk : k ≠ "")
    (backend : Except String String) :
    (query_agent_with_runner (some k) backend).generated = true := by
  unfold query_agent_with_runner
  have hcond : ¬(some k = none ∨ some k = some "") := by simp [hk]
  rw [if_neg hcond]
  cases backend with
  | ok text =>
      by_cases ht : text = ""
      · simp [ht]
      · simp [ht]
  | error msg =>
      by_cases hq : (pyIn "429" msg || pyIn "RESOURCE_EXHAUSTED" msg) = true
      · simp [hq]
      · simp [hq]

/-- On a failure exit, the cache-miss path leaves the store untouched; on
the success exit it stores exactly the value it returns, keyed at the
fingerprint and timestamped now. -/
theorem generateStep_cache (jsonLoads : String → Except String Json)
    (apiKey : Option String) (backend : Except String String)
    (now : Nat) (cache1 : Cache) (cache_key : String) :
    (pipelineFails jsonLoads apiKey backend = true
       ∧ (generateStep jsonLoads apiKey backend now cache1 cache_key).cache
           = cache1)
    ∨ (pipelineFails jsonLoads apiKey backend = false
       ∧ (generateStep jsonLoads apiKey backend now cache1 cache_key).cache
           = save_to_cache cache1 cache_key
               (generateStep jsonLoads apiKey backend now cache1 cache_key).result
               now) := by
  unfold generateStep pipelineFails
  rcases query_agent_with_runner apiKey backend with ⟨text, error, generated⟩
  cases error with
  | some e => exact Or.inl ⟨by trivial, by trivial⟩
  | none =>
    cases text with
    | none => exact Or.inl ⟨by trivial, by trivial⟩
    | some raw =>
      by_cases hs : pyStrip raw = ""
      · simp only [hs, if_true]
        exact Or.inl ⟨by trivial, by trivial⟩
      · simp only [hs, if_false]
        cases jsonLoads raw with
        | error e => exact Or.inl ⟨by trivial, by trivial⟩
        | ok results =>
          cases ho : results.isObj with
          | true =>
              simp only [ho, if_true, Bool.not_true]
              exact Or.inr ⟨by trivial, by trivial⟩
          | false =>
              simp only [ho, Bool.false_eq_true, if_false, Bool.not_false]
              exact Or.inl ⟨by trivial, by trivial⟩

/-- The fully successful run of the cache-miss path: configured key,
non-empty backend text, parseable as a dict. -/
theorem generateStep_success (jsonLoads : String → Except String Json)
    (k raw : String) (results : Json)
    (now : Nat) (cache1 : Cache) (cache_key : String)
    (hk : k ≠ "") (hstrip : pyStrip raw ≠ "")
    (hparse : jsonLoads raw = .ok results) (hobj : results.isObj = true) :
    generateStep jsonLoads (some k) (.ok raw) now cache1 cache_key
      = ⟨normalizeParsed results,
         save_to_cache cache1 cache_key (normalizeParsed results) now,
         true⟩ := by
  have hraw : raw ≠ "" := by
    intro h
    exact hstrip (by rw [h]; rfl)
  unfold generateStep query_agent_with_runner
  have hcond : ¬(some k = none ∨ some k = some "") := by simp [hk]
  rw [if_neg hcond]
  simp only [hraw, if_false, hstrip, hparse, hobj, if_true]

/-- On a cache miss the orchestrator runs the generate-normalize-store
path on the unchanged store. -/
theorem process_of_miss (md5h : String → String)
    (jsonLoads : String → Except String Json)
    (apiKey : Option String) (backend : Except String String)
    (now : Nat) (cache : Cache) (q p l : String)
    (hmiss : cacheLookup cache (get_cache_key md5h q p l) = none) :
    process_user_request md5h jsonLoads apiKey backend now cache q p l
      = generateStep jsonLoads apiKey backend now cache
          (get_cache_key md5h q p l) := by
  simp only [process_user_request, get_from_cache_of_none _ _ _ hmiss]

/-- When the lookup reports absent (also after evicting a stale entry),
the orchestrator runs the generate path on the updated store. -/
theorem process_of_get_none (md5h : String → String)
    (jsonLoads : String → Except String Json)
    (apiKey : Option String) (backend : Except String String)
    (now : Nat) (cache c1 : Cache) (q p l : String)
    (hg : get_from_cache cache (get_cache_key md5h q p l) now = (none, c1)) :
    process_user_request md5h jsonLoads apiKey backend now cache q p l
      = generateStep jsonLoads apiKey backend now c1
          (get_cache_key md5h q p l) := by
  simp only [process_user_request, hg]

/-- A fresh, truthy cache hit is returned as-is without touching the
backend. -/
theorem process_of_hit (md5h : String → String)
    (jsonLoads : String → Except String Json)
    (apiKey : Option String) (backend : Except String String)
    (now : Nat) (cache : Cache) (q p l : String) (d : Json) (t0 : Nat)
    (hl : cacheLookup cache (get_cache_key md5h q p l) = some (d, t0))
    (hfresh : now - t0 < CACHE_EXPIRY) (ht : d.pyTruthy = true) :
    process_user_request md5h jsonLoads apiKey backend now cache q p l
      = ⟨d, cache, false⟩ := by
  simp only [process_user_request, get_from_cache, hl, if_pos hfresh, ht,
    if_true]

/-- The parse-failure run of the cache-miss path: configured key,
non-empty text that `json.loads` rejects. -/
theorem generateStep_parse_error (jsonLoads : String → Except String Json)
    (k raw e : String) (now : Nat) (cache1 : Cache) (cache_key : String)
    (hk : k ≠ "") (hstrip : pyStrip raw ≠ "")
    (hparse : jsonLoads raw = .error e) :
    generateStep jsonLoads (some k) (.ok raw) now cache1 cache_key
      = ⟨defaultWithNotes
          [.str ("Failed to parse API response: " ++ e),
           .str ("Raw response preview: " ++ pyTake raw 100 ++ "...")],
         cache1, true⟩ := by
  have hraw : raw ≠ "" := fun h => hstrip (by rw [h]; rfl)
  unfold generateStep query_agent_with_runner
  have hcond : ¬(some k = none ∨ some k = some "") := by simp [hk]
  rw [if_neg hcond]
  simp [hraw, hstrip, hparse]

/-! ## Claim theorems -/

/-- C1: for every input to the pipeline — a backend failure outcome,
empty text, non-JSON text, JSON that is a bare array or scalar, JSON
missing any field, or JSON with wrong field types — `process_user_request`
returns a structurally valid Result: a dict with `intent`,
`recommendations` and `audit` fields, whose `audit` is a dict with
`overall_score`, `headline` and `summary_notes`. Totality of the Lean
function over all modelled inputs is the never-raises part of the
contract. Cached payloads are earlier results of the same pipeline,
captured by the `hWF` store invariant. -/
theorem C1_process_never_fails (md5h : String → String)
    (jsonLoads : String → Except String Json)
    (apiKey : Option String) (backend : Except String String)
    (now : Nat) (cache : Cache) (q p l : String)
    (hWF : ∀ k d t, cacheLookup cache k = some (d, t) → validShape d = true) :
    validShape
      (process_user_request md5h jsonLoads apiKey backend now cache q p l).result
      = true := by
  simp only [process_user_request]
  cases hg : get_from_cache cache (get_cache_key md5h q p l) now with
  | mk fst snd =>
    cases fst with
    | some d =>
        obtain ⟨t0, hl, _⟩ := get_from_cache_some _ _ _ _ _ hg
        cases ht : d.pyTruthy with
        | true => simp only [ht, if_true]; exact hWF _ _ _ hl
        | false =>
            simp only [ht, Bool.false_eq_true, if_false]
            exact generateStep_valid _ _ _ _ _ _
    | none => exact generateStep_valid _ _ _ _ _ _

/-- C1 witness: a concrete run (no credential, empty cache) produces a
structurally valid Result. -/
theorem C1_witness :
    validShape
      (process_user_request id (fun _ => Except.error "e") none
        (.error "boom") 0 [] "gluten free pizza" "celiac" "Boston").result
      = true :=
  C1_process_never_fails id (fun _ => Except.error "e") none (.error "boom")
    0 [] "gluten free pizza" "celiac" "Boston"
    (by intro k d t h; simp [cacheLookup] at h)

/-- C2 counterexample: the claim says a present `intent` outside
{RESTAURANT, GROCERY} is replaced by the default, but the code only
defaults an absent `intent`: the value `"SPACESHIP"` flows through the
whole pipeline into the returned Result. -/
theorem C2_counterexample :
    (process_user_request id
        (fun _ => .ok (.obj [("intent", .str "SPACESHIP")]))
        (some "key") (.ok "x") 0 [] "gluten free pizza" "celiac"
        "Boston").result.getField "intent"
      = some (.str "SPACESHIP")
    ∧ "SPACESHIP" ≠ "RESTAURANT" ∧ "SPACESHIP" ≠ "GROCERY" :=
  ⟨rfl, by decide, by decide⟩

/-- C2 amended: during normalization of a successfully parsed response,
`intent` is defaulted to RESTAURANT only when it is absent; a present
`intent` value — of any type, valid or not — is passed through to the
returned Result unchanged. -/
theorem C2_intent_default_only_when_absent (results : Json)
    (h : results.isObj = true) :
    (normalizeParsed results).getField "intent"
      = some ((results.getField "intent").getD (.str "RESTAURANT")) :=
  normalizeParsed_intent results h

/-- C2 witness: a dict with a non-enum intent keeps it; a dict without
intent gets RESTAURANT. -/
theorem C2_witness :
    (normalizeParsed (.obj [("intent", .str "WEIRD")])).getField "intent"
      = some (((Json.obj [("intent", .str "WEIRD")]).getField "intent").getD
          (.str "RESTAURANT"))
    ∧ (normalizeParsed (.obj [])).getField "intent"
      = some (((Json.obj []).getField "intent").getD (.str "RESTAURANT")) :=
  ⟨C2_intent_default_only_when_absent (.obj [("intent", .str "WEIRD")]) rfl,
   C2_intent_default_only_when_absent (.obj []) rfl⟩

/-- C3 counterexample: a recommendation element missing every required
field (`name`, `safe_items`, `reasoning`) is neither dropped nor
repaired: the empty dict reaches the caller unchanged inside
`recommendations`, with no trace added anywhere. -/
theorem C3_counterexample :
    (process_user_request id
        (fun _ => .ok (.obj [("recommendations", .arr [.obj []])]))
        (some "key") (.ok "x") 0 [] "q" "p" "l").result.getField
        "recommendations"
      = some (.arr [.obj []])
    ∧ (Json.obj []).hasField "name" = false
    ∧ (Json.obj []).hasField "safe_items" = false
    ∧ (Json.obj []).hasField "reasoning" = false :=
  ⟨rfl, rfl, rfl, rfl⟩

/-- C3 amended: the normalizer never inspects individual recommendation
elements; any list-valued `recommendations` — whatever its elements —
is passed through to the returned Result unchanged (only an absent or
non-list field is replaced, by the empty list). -/
theorem C3_recommendation_elements_passthrough (results : Json)
    (xs : List Json)
    (h : results.getField "recommendations" = some (.arr xs)) :
    (normalizeParsed results).getField "recommendations" = some (.arr xs) :=
  normalizeParsed_recommendations results xs h

/-- C3 witness: a list holding one field-less recommendation survives
unchanged. -/
theorem C3_witness :
    (normalizeParsed (.obj [("recommendations", .arr [.obj []])])).getField
      "recommendations" = some (.arr [.obj []]) :=
  C3_recommendation_elements_passthrough
    (.obj [("recommendations", .arr [.obj []])]) [.obj []] rfl

/-- C4: normalization repair is field-scoped: for a parsed dict with a
list-valued `recommendations` but an `audit` that is absent or not a
dict, the Result keeps `recommendations` exactly as given while `audit`
becomes exactly the documented default `incompleteAudit`
(overall_score 0, headline "Incomplete Response", the single note
"System returned incomplete data."). -/
theorem C4_field_scoped_repair (results : Json) (xs : List Json)
    (hrec : results.getField "recommendations" = some (.arr xs))
    (haud : ((results.getField "audit").getD .null).isObj = false) :
    (normalizeParsed results).getField "recommendations" = some (.arr xs)
    ∧ (normalizeParsed results).getField "audit" = some incompleteAudit :=
  ⟨normalizeParsed_recommendations results xs hrec,
   normalizeParsed_audit_default results xs hrec haud⟩

/-- C4 witness: a concrete dict with recommendations but no audit. -/
theorem C4_witness :
    (normalizeParsed (.obj [("recommendations",
        .arr [.str "Trattoria"])])).getField "recommendations"
      = some (.arr [.str "Trattoria"])
    ∧ (normalizeParsed (.obj [("recommendations",
        .arr [.str "Trattoria"])])).getField "audit"
      = some incompleteAudit :=
  C4_field_scoped_repair (.obj [("recommendations", .arr [.str "Trattoria"])])
    [.str "Trattoria"] rfl rfl

/-- C5 counterexample: when the first call fails (here: backend raises),
its degraded result is not cached, so an identical second call within
the TTL window does invoke the backend a second time — refuting the
claim's unconditional "the backend generation function is not invoked a
second time" for identical triples. -/
theorem C5_counterexample :
    (process_user_request id (fun _ => .error "e") (some "key")
        (.error "backend down") 0
        (process_user_request id (fun _ => .error "e") (some "key")
          (.error "backend down") 0 [] "pizza" "celiac" "Boston").cache
        "pizza" "celiac" "Boston").generated = true
    ∧ (process_user_request id (fun _ => .error "e") (some "key")
        (.error "backend down") 0 [] "pizza" "celiac" "Boston").generated
      = true :=
  ⟨rfl, rfl⟩

/-- C5 amended: for identical (query, profile, location) within the TTL
window, when the first call succeeded (configured key, non-empty backend
text that parses to a dict — the only case in which the result is
cached), a second call returns a value structurally equal (Lean equality
of the `Json` value) to the first call's result without invoking the
backend a second time; a failed first call instead causes re-invocation
(see the counterexample and C10). -/
theorem C5_cache_idempotent_on_success (md5h : String → String)
    (jsonLoads : String → Except String Json) (k raw : String)
    (results : Json) (now now2 : Nat) (cache : Cache) (q p l : String)
    (hk : k ≠ "") (hstrip : pyStrip raw ≠ "")
    (hparse : jsonLoads raw = .ok results) (hobj : results.isObj = true)
    (hmiss : cacheLookup cache (get_cache_key md5h q p l) = none)
    (hfresh : now2 - now < CACHE_EXPIRY) :
    (process_user_request md5h jsonLoads (some k) (.ok raw) now2
        (process_user_request md5h jsonLoads (some k) (.ok raw) now cache
          q p l).cache q p l).result
      = (process_user_request md5h jsonLoads (some k) (.ok raw) now cache
          q p l).result
    ∧ (process_user_request md5h jsonLoads (some k) (.ok raw) now2
        (process_user_request md5h jsonLoads (some k) (.ok raw) now cache
          q p l).cache q p l).generated = false
    ∧ (process_user_request md5h jsonLoads (some k) (.ok raw) now cache
        q p l).generated = true := by
  have h1 : process_user_request md5h jsonLoads (some k) (.ok raw) now cache
      q p l
      = ⟨normalizeParsed results,
         save_to_cache cache (get_cache_key md5h q p l)
           (normalizeParsed results) now, true⟩ := by
    rw [process_of_miss _ _ _ _ _ _ _ _ _ hmiss,
      generateStep_success _ _ _ _ _ _ _ hk hstrip hparse hobj]
  have hlook : cacheLookup (save_to_cache cache (get_cache_key md5h q p l)
      (normalizeParsed results) now) (get_cache_key md5h q p l)
      = some (normalizeParsed results, now) := cacheLookup_insert_self _ _ _
  have h2 : process_user_request md5h jsonLoads (some k) (.ok raw) now2
      (save_to_cache cache (get_cache_key md5h q p l)
        (normalizeParsed results) now) q p l
      = ⟨normalizeParsed results,
         save_to_cache cache (get_cache_key md5h q p l)
           (normalizeParsed results) now, false⟩ :=
    process_of_hit _ _ _ _ _ _ _ _ _ _ _ hlook hfresh
      (normalizeParsed_pyTruthy results hobj)
  rw [h1]
  rw [h2]
  exact ⟨rfl, rfl, rfl⟩

/-- C5 witness: a concrete successful first call followed by a cache hit
ten seconds later. -/
theorem C5_witness :
    (process_user_request id (fun _ => .ok (.obj [("intent", .str "GROCERY")]))
        (some "key") (.ok "x") 10
        (process_user_request id
          (fun _ => .ok (.obj [("intent", .str "GROCERY")]))
          (some "key") (.ok "x") 0 [] "oat milk" "celiac" "Boston").cache
        "oat milk" "celiac" "Boston").result
      = (process_user_request id
          (fun _ => .ok (.obj [("intent", .str "GROCERY")]))
          (some "key") (.ok "x") 0 [] "oat milk" "celiac" "Boston").result
    ∧ (process_user_request id
        (fun _ => .ok (.obj [("intent", .str "GROCERY")]))
        (some "key") (.ok "x") 10
        (process_user_request id
          (fun _ => .ok (.obj [("intent", .str "GROCERY")]))
          (some "key") (.ok "x") 0 [] "oat milk" "celiac" "Boston").cache
        "oat milk" "celiac" "Boston").generated = false
    ∧ (process_user_request id
        (fun _ => .ok (.obj [("intent", .str "GROCERY")]))
        (some "key") (.ok "x") 0 [] "oat milk" "celiac" "Boston").generated
      = true :=
  C5_cache_idempotent_on_success id
    (fun _ => .ok (.obj [("intent", .str "GROCERY")])) "key" "x"
    (.obj [("intent", .str "GROCERY")]) 0 10 [] "oat milk" "celiac" "Boston"
    (by decide) (by decide) rfl rfl rfl (by decide)

/-- C6: a cache entry is valid only while `now - created_at < TTL`
(TTL = `CACHE_EXPIRY` = 3600 s). (a) A lookup at or after `t0 + TTL`
treats the entry as absent and removes it from the store; (b) whatever
lookup does return came from an entry with `now - t0 < TTL` — a stale
entry is never returned; (c) with a stale-only entry and a configured
key, `process_user_request` invokes the backend afresh. -/
theorem C6_ttl_expiry :
    (∀ (cache : Cache) (key : String) (d : Json) (t0 now : Nat),
       cacheLookup cache key = some (d, t0) → t0 + CACHE_EXPIRY ≤ now →
       (get_from_cache cache key now).1 = none
       ∧ cacheLookup (get_from_cache cache key now).2 key = none)
    ∧ (∀ (cache cache2 : Cache) (key : String) (now : Nat) (d : Json),
       get_from_cache cache key now = (some d, cache2) →
       ∃ t0, cacheLookup cache key = some (d, t0) ∧ now - t0 < CACHE_EXPIRY)
    ∧ (∀ (md5h : String → String) (jsonLoads : String → Except String Json)
         (k : String) (backend : Except String String) (now t0 : Nat)
         (cache : Cache) (q p l : String) (d : Json),
       k ≠ "" →
       cacheLookup cache (get_cache_key md5h q p l) = some (d, t0) →
       t0 + CACHE_EXPIRY ≤ now →
       (process_user_request md5h jsonLoads (some k) backend now cache
          q p l).generated = true) := by
  refine ⟨?_, ?_, ?_⟩
  · intro cache key d t0 now hl ht
    rw [get_from_cache_expired _ _ _ _ _ hl ht]
    exact ⟨rfl, cacheLookup_erase_self _ _⟩
  · intro cache cache2 key now d h
    exact get_from_cache_some _ _ _ _ _ h
  · intro md5h jsonLoads k backend now t0 cache q p l d hk hl ht
    rw [process_of_get_none _ _ _ _ _ _ _ _ _ _
        (get_from_cache_expired _ _ _ _ _ hl ht),
      generateStep_generated, query_agent_generated k hk]

/-- C6 witness: an entry stored at 0 is gone at 3600 and forces a
backend call; a fresh lookup at 10 is certified to come from a fresh
entry. -/
theorem C6_witness :
    ((get_from_cache [("K", .str "v", 0)] "K" 3600).1 = none
      ∧ cacheLookup (get_from_cache [("K", .str "v", 0)] "K" 3600).2 "K"
        = none)
    ∧ (∃ t0, cacheLookup [("K", .str "v", 5)] "K" = some (.str "v", t0)
        ∧ 10 - t0 < CACHE_EXPIRY)
    ∧ (process_user_request id (fun _ => .error "e") (some "key")
        (.error "boom") 3600
        [(get_cache_key id "q" "p" "l", .str "v", 0)] "q" "p"
        "l").generated = true :=
  ⟨C6_ttl_expiry.1 [("K", .str "v", 0)] "K" (.str "v") 0 3600 rfl
     (by decide),
   C6_ttl_expiry.2.1 [("K", .str "v", 5)] [("K", .str "v", 5)] "K" 10
     (.str "v") rfl,
   C6_ttl_expiry.2.2 id (fun _ => .error "e") "key" (.error "boom") 3600 0
     [(get_cache_key id "q" "p" "l", .str "v", 0)] "q" "p" "l" (.str "v")
     (by decide) rfl (by decide)⟩

/-- C7: the cache fingerprint is invariant under case changes and
leading/trailing whitespace: any two request triples whose fields agree
after lowercasing and stripping produce the same `get_cache_key`, for
every hash function (in particular for md5's hexdigest). -/
theorem C7_fingerprint_normalization (md5h : String → String)
    (q p l q2 p2 l2 : String)
    (hq : pyStrip (pyLower q) = pyStrip (pyLower q2))
    (hp : pyStrip (pyLower p) = pyStrip (pyLower p2))
    (hl : pyStrip (pyLower l) = pyStrip (pyLower l2)) :
    get_cache_key md5h q p l = get_cache_key md5h q2 p2 l2 := by
  unfold get_cache_key
  rw [hq, hp, hl]

/-- C7 witness: the spec's own example pair. -/
theorem C7_witness :
    pyStrip (pyLower "Pizza") = pyStrip (pyLower "  pizza ")
    ∧ get_cache_key (fun s => s) "Pizza" "celiac" "Boston"
      = get_cache_key (fun s => s) "  pizza " "CELIAC" "boston" :=
  ⟨by decide,
   C7_fingerprint_normalization (fun s => s) "Pizza" "celiac" "Boston"
     "  pizza " "CELIAC" "boston" (by decide) (by decide) (by decide)⟩

/-- C8: with a configured key, a backend exception whose message contains
"429" or "RESOURCE_EXHAUSTED" is reported as the quota-exceeded failure
("⚠️ API Quota Exceeded: ..."), and any other exception as the generic
backend failure ("⚠️ API Error: ..."); in both cases no text is
returned. -/
theorem C8_quota_classification (k error_msg : String) (hk : k ≠ "") :
    ((pyIn "429" error_msg || pyIn "RESOURCE_EXHAUSTED" error_msg) = true →
      query_agent_with_runner (some k) (.error error_msg)
        = ⟨none, some ("⚠️ API Quota Exceeded: " ++ error_msg), true⟩)
    ∧ ((pyIn "429" error_msg || pyIn "RESOURCE_EXHAUSTED" error_msg) = false →
      query_agent_with_runner (some k) (.error error_msg)
        = ⟨none, some ("⚠️ API Error: " ++ error_msg), true⟩) := by
  have hcond : ¬(some k = none ∨ some k = some "") := by simp [hk]
  constructor
  · intro hq
    unfold query_agent_with_runner
    rw [if_neg hcond]
    simp [hq]
  · intro hq
    unfold query_agent_with_runner
    rw [if_neg hcond]
    simp [hq]

/-- C8 witness: one quota-signature message, one generic message. -/
theorem C8_witness :
    (pyIn "429" "error 429: rate limited"
      || pyIn "RESOURCE_EXHAUSTED" "error 429: rate limited") = true
    ∧ query_agent_with_runner (some "key") (.error "error 429: rate limited")
      = ⟨none, some ("⚠️ API Quota Exceeded: " ++ "error 429: rate limited"),
         true⟩
    ∧ query_agent_with_runner (some "key") (.error "connection reset")
      = ⟨none, some ("⚠️ API Error: " ++ "connection reset"), true⟩ :=
  ⟨by decide,
   (C8_quota_classification "key" "error 429: rate limited" (by decide)).1
     (by decide),
   (C8_quota_classification "key" "connection reset" (by decide)).2
     (by decide)⟩

/-- C9: when the backend returns non-empty text that `json.loads`
rejects, the Result's `audit.summary_notes` holds exactly the
parse-error description and the preview of the first 100 characters of
the offending raw text, and `recommendations` is empty. -/
theorem C9_parse_failure_diagnostics (md5h : String → String)
    (jsonLoads : String → Except String Json) (k raw e : String)
    (now : Nat) (cache : Cache) (q p l : String)
    (hk : k ≠ "") (hstrip : pyStrip raw ≠ "")
    (hparse : jsonLoads raw = .error e)
    (hmiss : cacheLookup cache (get_cache_key md5h q p l) = none) :
    (((process_user_request md5h jsonLoads (some k) (.ok raw) now cache
        q p l).result.getField "audit").getD .null).getField "summary_notes"
      = some (.arr [.str ("Failed to parse API response: " ++ e),
                    .str ("Raw response preview: " ++ pyTake raw 100 ++ "...")])
    ∧ (process_user_request md5h jsonLoads (some k) (.ok raw) now cache
        q p l).result.getField "recommendations" = some (.arr []) := by
  rw [process_of_miss _ _ _ _ _ _ _ _ _ hmiss,
    generateStep_parse_error _ _ _ _ _ _ _ hk hstrip hparse]
  exact ⟨rfl, rfl⟩

/-- C9 witness: a concrete truncated-JSON backend reply. -/
theorem C9_witness :
    (((process_user_request id (fun _ => .error "Expecting value: line 1")
        (some "key") (.ok "\x7b\x7bbroken") 0 [] "q" "p"
        "l").result.getField "audit").getD .null).getField "summary_notes"
      = some (.arr
          [.str ("Failed to parse API response: " ++ "Expecting value: line 1"),
           .str ("Raw response preview: " ++ pyTake "\x7b\x7bbroken" 100 ++ "...")])
    ∧ (process_user_request id (fun _ => .error "Expecting value: line 1")
        (some "key") (.ok "\x7b\x7bbroken") 0 [] "q" "p"
        "l").result.getField "recommendations" = some (.arr []) :=
  C9_parse_failure_diagnostics id (fun _ => .error "Expecting value: line 1")
    "key" "\x7b\x7bbroken" "Expecting value: line 1" 0 [] "q" "p" "l"
    (by decide) (by decide) rfl rfl

/-- C10: failure results are never cached. On a cache miss, if the run
takes any failure exit (backend error, missing credential, empty
response, parse failure, or non-dict JSON) then nothing is stored under
the request's fingerprint and a subsequent identical request (with a
configured key) invokes the backend again; if the run succeeds, what is
stored under the fingerprint is exactly the returned Result. -/
theorem C10_failures_not_cached (md5h : String → String)
    (jsonLoads : String → Except String Json)
    (apiKey : Option String) (backend : Except String String)
    (now : Nat) (cache : Cache) (q p l : String)
    (hmiss : cacheLookup cache (get_cache_key md5h q p l) = none) :
    (pipelineFails jsonLoads apiKey backend = true →
       cacheLookup
           (process_user_request md5h jsonLoads apiKey backend now cache
             q p l).cache (get_cache_key md5h q p l) = none
       ∧ ∀ (now2 : Nat) (k : String), apiKey = some k → k ≠ "" →
           (process_user_request md5h jsonLoads apiKey backend now2
               (process_user_request md5h jsonLoads apiKey backend now cache
                 q p l).cache q p l).generated = true)
    ∧ (pipelineFails jsonLoads apiKey backend = false →
       cacheLookup
           (process_user_request md5h jsonLoads apiKey backend now cache
             q p l).cache (get_cache_key md5h q p l)
         = some ((process_user_request md5h jsonLoads apiKey backend now
             cache q p l).result, now)) := by
  have h1 : process_user_request md5h jsonLoads apiKey backend now cache q p l
      = generateStep jsonLoads apiKey backend now cache
          (get_cache_key md5h q p l) :=
    process_of_miss _ _ _ _ _ _ _ _ _ hmiss
  rcases generateStep_cache jsonLoads apiKey backend now cache
      (get_cache_key md5h q p l) with ⟨hf, hcache⟩ | ⟨hf, hcache⟩
  · constructor
    · intro _
      have hnone : cacheLookup
          (process_user_request md5h jsonLoads apiKey backend now cache
            q p l).cache (get_cache_key md5h q p l) = none := by
        rw [h1, hcache]; exact hmiss
      refine ⟨hnone, ?_⟩
      intro now2 k hks hk
      subst hks
      rw [process_of_miss _ _ _ _ _ _ _ _ _ hnone,
        generateStep_generated, query_agent_generated k hk]
    · intro hff
      rw [hf] at hff
      cases hff
  · constructor
    · intro hft
      rw [hf] at hft
      cases hft
    · intro _
      rw [h1, hcache]
      exact cacheLookup_insert_self _ _ _

/-- C10 witness: a failing run (backend exception) stores nothing and
re-invokes the backend; a successful run stores its own result. -/
theorem C10_witness :
    (cacheLookup
        (process_user_request id (fun _ => .error "e") (some "key")
          (.error "boom") 0 [] "q" "p" "l").cache
        (get_cache_key id "q" "p" "l") = none
      ∧ (process_user_request id (fun _ => .error "e") (some "key")
          (.error "boom") 7
          (process_user_request id (fun _ => .error "e") (some "key")
            (.error "boom") 0 [] "q" "p" "l").cache "q" "p" "l").generated
        = true)
    ∧ cacheLookup
        (process_user_request id (fun _ => .ok (.obj [])) (some "key")
          (.ok "x") 0 [] "q" "p" "l").cache (get_cache_key id "q" "p" "l")
      = some ((process_user_request id (fun _ => .ok (.obj [])) (some "key")
          (.ok "x") 0 [] "q" "p" "l").result, 0) :=
  ⟨⟨((C10_failures_not_cached id (fun _ => .error "e") (some "key")
        (.error "boom") 0 [] "q" "p" "l" rfl).1 (by decide)).1,
    ((C10_failures_not_cached id (fun _ => .error "e") (some "key")
        (.error "boom") 0 [] "q" "p" "l" rfl).1 (by decide)).2 7 "key" rfl
      (by decide)⟩,
   (C10_failures_not_cached id (fun _ => .ok (.obj [])) (some "key")
      (.ok "x") 0 [] "q" "p" "l" rfl).2 (by decide)⟩

end SafePlate
